import Mathlib

/-!
Shallow embedding of the canonical motion front-end (`src/emc/task/emccanon.cc`).

Doubles are modelled as rationals (`ℚ`); the C arithmetic on the paths that the
claims exercise is exact (sums, products, divisions, comparisons), so `ℚ` is a
faithful model of the values the program computes, while keeping every
definition executable.  The only two places where the source calls libm
functions are

  * `rotate` (calls `cos`/`sin`): the trig functions are *external* to this
    repository, so they enter the model as uninterpreted fields `cosD`/`sinD`
    of the environment (cosine/sine of an angle given in degrees, i.e. of
    `D2R(theta)` in the source);
  * `mag` inside `linkable` (calls `sqrt`): the square root is used only in
    the comparison `mag(v) > tol`, which is embedded by its exact real
    equivalent `tol < 0 ∨ |v|² > tol²` (lemma `sqrt_gt_iff_sq` below proves
    the equivalence over `ℝ`).

External configuration that the source reads through `emcStatus` and the
`emcAxisGet*` / `GET_EXTERNAL_*` calls (axis mask, per-axis limits, external
unit factors, digital-input snapshot, the `EMCMOT_MAX_DIO`/`EMCMOT_MAX_AIO`
header constants) is bundled in an `ExtEnv` record, and the process-wide
`CanonConfig_t canon` singleton plus the `chained_points()` vector become an
explicit state `St` threaded through the dispatch functions.  Each dispatch
returns the new state together with the list of messages it appended to the
interpreter list, in order.
-/

attribute [local semireducible] Rat.sub Rat.add Rat.mul Rat.inv

namespace EmcCanon

/-- fabs of the C source, on the rational model of doubles. -/
def fabs (q : ℚ) : ℚ := if q < 0 then -q else q

/-- CANON_POSITION / EmcPose: nine scalar coordinates, in internal mm/deg
units (or external units for message payloads). -/
structure Pose where
  x : ℚ
  y : ℚ
  z : ℚ
  a : ℚ
  b : ℚ
  c : ℚ
  u : ℚ
  v : ℚ
  w : ℚ
deriving DecidableEq, Repr

/-- The all-zero pose. -/
def Pose.zero : Pose := ⟨0, 0, 0, 0, 0, 0, 0, 0, 0⟩

/-- CANON_UNITS. -/
inductive CanonUnits where
  | inches
  | mm
  | cm
deriving DecidableEq, Repr

/-- CANON_MOTION_MODE. -/
inductive MotionMode where
  | exactStop
  | exactPath
  | continuous
deriving DecidableEq, Repr

/-- EMC_MOTION_TYPE_* tags carried by linear/circular move messages. -/
inductive MotionType where
  | traverse
  | feed
  | arc
  | toolchange
  | probing
deriving DecidableEq, Repr

/-- EMC_TRAJ_TERM_COND_* values. -/
inductive TermCond where
  | stop
  | blend
deriving DecidableEq, Repr

/-- Entry of the `chained_points()` segment buffer (`struct pt` in the
source): a fused feed end point plus its line number. -/
structure Pt where
  x : ℚ
  y : ℚ
  z : ℚ
  a : ℚ
  b : ℚ
  c : ℚ
  u : ℚ
  v : ℚ
  w : ℚ
  line_no : Int
deriving DecidableEq, Repr

/-- Coordinates of a buffer entry as a pose. -/
def Pt.pos (p : Pt) : Pose := ⟨p.x, p.y, p.z, p.a, p.b, p.c, p.u, p.v, p.w⟩

/-- Buffer entry made from a pose and a line number. -/
def Pt.ofPose (p : Pose) (line_no : Int) : Pt :=
  ⟨p.x, p.y, p.z, p.a, p.b, p.c, p.u, p.v, p.w, line_no⟩

/-- The mutable world state of the core: the fields of the `CanonConfig_t
canon` singleton that the verified operations read or write. -/
structure CanonCfg where
  endPoint : Pose
  programOrigin : Pose
  toolOffset : Pose
  xy_rotation : ℚ
  lengthUnits : CanonUnits
  motionMode : MotionMode
  motionTolerance : ℚ
  naivecamTolerance : ℚ
  feed_mode : Int
  linearFeedRate : ℚ
  angularFeedRate : ℚ
  spindleSpeed : ℚ
  css_maximum : ℚ
  css_numerator : ℚ
  cartesian_move : Bool
  angular_move : Bool
  synched : Bool
deriving DecidableEq, Repr

/-- Read-only external environment: host configuration reached through
`emcStatus`, the `emcAxisGet*` queries, the `GET_EXTERNAL_*_UNITS` calls, the
libm trig functions, and the motion header constants.  `uninitVel` models the
indeterminate value of the local variable `vel` in `getStraightVelocity`,
which the source never initialises before the degenerate (no-motion) case
reads it. -/
structure ExtEnv where
  axisMask : Nat
  maxVel : Nat → ℚ
  maxAcc : Nat → ℚ
  maxJerk : Nat → ℚ
  extLen : ℚ
  extAng : ℚ
  cosD : ℚ → ℚ
  sinD : ℚ → ℚ
  piV : ℚ
  uninitVel : ℚ
  maxDIO : Int
  maxAIO : Int
  inputTimeout : Bool
  synchDI : Int → Int

/-- Full mutable state: the canon singleton plus the `chained_points()`
segment buffer. -/
structure St where
  cfg : CanonCfg
  points : List Pt
deriving DecidableEq, Repr

/-- Interpreter-list messages emitted by the verified operations (tagged
variants of the NML messages the source appends). -/
inductive Msg where
  | linearMove (line_no : Int) (feed_mode : Int) (endp : Pose)
      (vel ini_maxvel acc ini_maxjerk : ℚ) (motionType : MotionType)
  | rigidTap (line_no : Int) (pos : Pose) (vel ini_maxvel acc : ℚ)
  | spindleOn (speed factor xoffset : ℚ)
  | spindleSpeedMsg (speed factor xoffset : ℚ)
  | spindleOff
  | setRotation (rotation : ℚ)
  | spindleSync (feed_per_revolution : ℚ) (velocity_mode : Bool)
  | setTermCond (cond : TermCond) (tolerance : ℚ)
  | auxInputWait (index input_type wait_type : Int) (timeout : ℚ)
deriving DecidableEq, Repr

/-- Constant `tiny = 1e-7` from the source. -/
def tinyQ : ℚ := 1 / 10000000

/-- Constant `huge = 1e9` from the source (the per-axis sentinel). -/
def hugeQ : ℚ := 1000000000

/-- MIN of the source macros. -/
def minQ (a b : ℚ) : ℚ := if a < b then a else b

/-- MIN3 of the source macros. -/
def min3Q (a b c : ℚ) : ℚ := minQ (minQ a b) c

/-- MIN4 of the source macros. -/
def min4Q (a b c d : ℚ) : ℚ := minQ (minQ a b) (minQ c d)

/-- axis_valid: `emcStatus->motion.traj.axis_mask & (1<<n)`. -/
def axis_valid (env : ExtEnv) (n : Nat) : Bool := env.axisMask.testBit n

/-- FROM_PROG_LEN factor: 25.4 for inches, 10 for cm, 1 for mm. -/
def progLenFactor (units : CanonUnits) : ℚ :=
  match units with
  | CanonUnits.inches => 254 / 10
  | CanonUnits.cm => 10
  | CanonUnits.mm => 1

/-- FROM_PROG_LEN. -/
def from_prog_len (units : CanonUnits) (v : ℚ) : ℚ := v * progLenFactor units

/-- from_prog: convert a program-unit pose to internal mm/deg units
(FROM_PROG_LEN on lengths, FROM_PROG_ANG = identity on angles). -/
def from_prog (units : CanonUnits) (p : Pose) : Pose :=
  ⟨from_prog_len units p.x, from_prog_len units p.y, from_prog_len units p.z,
   p.a, p.b, p.c,
   from_prog_len units p.u, from_prog_len units p.v, from_prog_len units p.w⟩

/-- to_ext_pose: TO_EXT_LEN on lengths, TO_EXT_ANG on angles. -/
def to_ext_pose (env : ExtEnv) (p : Pose) : Pose :=
  ⟨p.x * env.extLen, p.y * env.extLen, p.z * env.extLen,
   p.a * env.extAng, p.b * env.extAng, p.c * env.extAng,
   p.u * env.extLen, p.v * env.extLen, p.w * env.extLen⟩

/-- rotate: planar rotation of (x, y) by theta degrees; the source computes
`x*cos(D2R(theta)) - y*sin(D2R(theta))` etc., with cos/sin supplied by libm
(fields `cosD`/`sinD` of the environment). -/
def rotateQ (env : ExtEnv) (x y theta : ℚ) : ℚ × ℚ :=
  (x * env.cosD theta - y * env.sinD theta,
   x * env.sinD theta + y * env.cosD theta)

/-- rotate_and_offset_pos: rotate x,y by `canon.xy_rotation`, then add
`programOrigin + toolOffset` on all nine coordinates. -/
def rotate_and_offset_pos (env : ExtEnv) (cfg : CanonCfg) (p : Pose) : Pose :=
  let r := rotateQ env p.x p.y cfg.xy_rotation
  let o := cfg.programOrigin
  let t := cfg.toolOffset
  ⟨r.1 + o.x + t.x, r.2 + o.y + t.y, p.z + o.z + t.z,
   p.a + o.a + t.a, p.b + o.b + t.b, p.c + o.c + t.c,
   p.u + o.u + t.u, p.v + o.v + t.v, p.w + o.w + t.w⟩

/-- Per-axis travel distance preparation shared by the three envelope
functions: `d = fabs(target - endPoint)`, then zeroed when the axis is not in
the axis mask or the distance is below `tiny`. -/
def straightDelta (env : ExtEnv) (n : Nat) (target endpt : ℚ) : ℚ :=
  let d := fabs (target - endpt)
  if axis_valid env n = false ∨ d < tinyQ then 0 else d

/-- All nine zeroed deltas of a proposed move, as a pose-shaped record. -/
def straightDeltas (env : ExtEnv) (cfg : CanonCfg) (p : Pose) : Pose :=
  let e := cfg.endPoint
  ⟨straightDelta env 0 p.x e.x, straightDelta env 1 p.y e.y,
   straightDelta env 2 p.z e.z, straightDelta env 3 p.a e.a,
   straightDelta env 4 p.b e.b, straightDelta env 5 p.c e.c,
   straightDelta env 6 p.u e.u, straightDelta env 7 p.v e.v,
   straightDelta env 8 p.w e.w⟩

/-- Classification of the move (`canon.cartesian_move`): set when some
linear-axis delta is positive. -/
def classifyCartesian (d : Pose) : Bool :=
  !(d.x ≤ 0 ∧ d.y ≤ 0 ∧ d.z ≤ 0 ∧ d.u ≤ 0 ∧ d.v ≤ 0 ∧ d.w ≤ 0 : Bool)

/-- Classification of the move (`canon.angular_move`): set when some
angular-axis delta is positive. -/
def classifyAngular (d : Pose) : Bool :=
  !(d.a ≤ 0 ∧ d.b ≤ 0 ∧ d.c ≤ 0 : Bool)

/-- The `d ? limit : huge` selection used throughout the envelope minima. -/
def axisLimit (d lim : ℚ) : ℚ := if d ≠ 0 then lim else hugeQ

/-- Envelope minimum over the linear axes (0,1,2 then 6,7,8), divided by the
external length units: `FROM_EXT_LEN(MIN4(MIN3(..xyz..), ..uvw..))`. -/
def linearEnvelope (env : ExtEnv) (get : Nat → ℚ) (d : Pose) : ℚ :=
  min4Q (min3Q (axisLimit d.x (get 0)) (axisLimit d.y (get 1))
          (axisLimit d.z (get 2)))
    (axisLimit d.u (get 6)) (axisLimit d.v (get 7)) (axisLimit d.w (get 8))
    / env.extLen

/-- Envelope minimum over the angular axes (3,4,5), divided by the external
angle units: `FROM_EXT_ANG(MIN3(..abc..))`. -/
def angularEnvelope (env : ExtEnv) (get : Nat → ℚ) (d : Pose) : ℚ :=
  min3Q (axisLimit d.a (get 3)) (axisLimit d.b (get 4))
      (axisLimit d.c (get 5))
    / env.extAng

/-- getStraightVelocity: envelope velocity of a straight move to `p`,
clamped by `canon.linearFeedRate` before returning (`vel = MIN(vel,
canon.linearFeedRate)` is the last line of the source function).  Also
returns the `cartesian_move`/`angular_move` flags the call stores into the
canon state.  In the degenerate case (all deltas zero) the source returns
`MIN(vel, canon.linearFeedRate)` with `vel` never initialised; that
indeterminate value is `env.uninitVel`. -/
def getStraightVelocity (env : ExtEnv) (cfg : CanonCfg) (p : Pose) :
    ℚ × Bool × Bool :=
  let d := straightDeltas env cfg p
  let cart := classifyCartesian d
  let ang := classifyAngular d
  let vel :=
    if cart = true ∧ ang = false then linearEnvelope env env.maxVel d
    else if cart = false ∧ ang = true then angularEnvelope env env.maxVel d
    else if cart = true ∧ ang = true then
      minQ (linearEnvelope env env.maxVel d) (angularEnvelope env env.maxVel d)
    else env.uninitVel
  (minQ vel cfg.linearFeedRate, cart, ang)

/-- getStraightAcceleration: envelope acceleration (initialised to 0 for a
move to nowhere), plus the move-classification flags. -/
def getStraightAcceleration (env : ExtEnv) (cfg : CanonCfg) (p : Pose) :
    ℚ × Bool × Bool :=
  let d := straightDeltas env cfg p
  let cart := classifyCartesian d
  let ang := classifyAngular d
  let acc :=
    if cart = true ∧ ang = false then linearEnvelope env env.maxAcc d
    else if cart = false ∧ ang = true then angularEnvelope env env.maxAcc d
    else if cart = true ∧ ang = true then
      minQ (linearEnvelope env env.maxAcc d) (angularEnvelope env env.maxAcc d)
    else 0
  (acc, cart, ang)

/-- getStraightJerk: envelope jerk (initialised to 0 for a move to nowhere),
plus the move-classification flags. -/
def getStraightJerk (env : ExtEnv) (cfg : CanonCfg) (p : Pose) :
    ℚ × Bool × Bool :=
  let d := straightDeltas env cfg p
  let cart := classifyCartesian d
  let ang := classifyAngular d
  let jerk :=
    if cart = true ∧ ang = false then linearEnvelope env env.maxJerk d
    else if cart = false ∧ ang = true then angularEnvelope env env.maxJerk d
    else if cart = true ∧ ang = true then
      minQ (linearEnvelope env env.maxJerk d) (angularEnvelope env env.maxJerk d)
    else 0
  (jerk, cart, ang)

/-- toExtVel: convert an internal velocity (or, via toExtAcc, acceleration)
to external units according to the current move-classification flags; every
branch of the source multiplies by the external length units except the pure
angular one. -/
def toExtVel (env : ExtEnv) (cfg : CanonCfg) (vel : ℚ) : ℚ :=
  if cfg.cartesian_move = true ∧ cfg.angular_move = false then vel * env.extLen
  else if cfg.cartesian_move = false ∧ cfg.angular_move = true then
    vel * env.extAng
  else if cfg.cartesian_move = true ∧ cfg.angular_move = true then
    vel * env.extLen
  else vel * env.extLen

/-- flush_segments: if the buffer is empty do nothing; otherwise emit one
linear feed move for the last buffered point (velocity from
`getStraightVelocity`, re-clamped by the linear/angular feed rate according
to the move category), unless both `vel` and `acc` are zero and no synch is
active; update `endPoint` to the buffered point and clear the buffer. -/
def flush_segments (env : ExtEnv) (s : St) : St × List Msg :=
  match s.points.getLast? with
  | none => (s, [])
  | some pos =>
    let p := pos.pos
    let r1 := getStraightVelocity env s.cfg p
    let ini_maxvel := r1.1
    let cfg1 := { s.cfg with cartesian_move := r1.2.1, angular_move := r1.2.2 }
    let vel :=
      if cfg1.cartesian_move = true ∧ cfg1.angular_move = false then
        if ini_maxvel > cfg1.linearFeedRate then cfg1.linearFeedRate
        else ini_maxvel
      else if cfg1.cartesian_move = false ∧ cfg1.angular_move = true then
        if ini_maxvel > cfg1.angularFeedRate then cfg1.angularFeedRate
        else ini_maxvel
      else if cfg1.cartesian_move = true ∧ cfg1.angular_move = true then
        if ini_maxvel > cfg1.linearFeedRate then cfg1.linearFeedRate
        else ini_maxvel
      else ini_maxvel
    let msgVel := toExtVel env cfg1 vel
    let msgIniMaxvel := toExtVel env cfg1 ini_maxvel
    let r2 := getStraightJerk env cfg1 p
    let cfg2 := { cfg1 with cartesian_move := r2.2.1, angular_move := r2.2.2 }
    let msgIniMaxjerk := r2.1 * env.extLen
    let r3 := getStraightAcceleration env cfg2 p
    let acc := r3.1
    let cfg3 := { cfg2 with cartesian_move := r3.2.1, angular_move := r3.2.2 }
    let msgAcc := toExtVel env cfg3 acc
    let out :=
      if (vel ≠ 0 ∧ acc ≠ 0) ∨ cfg3.synched = true then
        [Msg.linearMove pos.line_no cfg3.feed_mode (to_ext_pose env p)
          msgVel msgIniMaxvel msgAcc msgIniMaxjerk MotionType.feed]
      else []
    (⟨{ cfg3 with endPoint := p }, []⟩, out)

/-- PM_CARTESIAN triple used by the fusion geometry. -/
structure V3 where
  x : ℚ
  y : ℚ
  z : ℚ
deriving DecidableEq, Repr

/-- Dot product of two triples. -/
def V3.dot (p q : V3) : ℚ := p.x * q.x + p.y * q.y + p.z * q.z

/-- Componentwise difference of two triples. -/
def V3.sub (p q : V3) : V3 := ⟨p.x - q.x, p.y - q.y, p.z - q.z⟩

/-- Componentwise sum of two triples. -/
def V3.add (p q : V3) : V3 := ⟨p.x + q.x, p.y + q.y, p.z + q.z⟩

/-- Scale a triple. -/
def V3.scale (t : ℚ) (p : V3) : V3 := ⟨t * p.x, t * p.y, t * p.z⟩

/-- Squared distance from a buffered point `P` to the segment from `B` with
direction `M`: the source computes `t0 = dot(M, P-B) / dot(M, M)`, clamps it
to [0,1] and takes `mag(P - (B + t0*M))`; this is that magnitude squared. -/
def segDistSq (B M P : V3) : ℚ :=
  let t0 := V3.dot M (V3.sub P B) / V3.dot M M
  let t1 := if t0 < 0 then 0 else t0
  let t2 := if t1 > 1 then 1 else t1
  let d := V3.sub P (V3.add B (V3.scale t2 M))
  V3.dot d d

/-- The source comparison `mag(d) > tol`, i.e. `sqrt(dsq) > tol`, embedded by
its exact arithmetic equivalent `tol < 0 ∨ dsq > tol²` (see
`sqrt_gt_iff_sq`). -/
def magGtTol (dsq tol : ℚ) : Bool := decide (tol < 0 ∨ dsq > tol ^ 2)

/-- linkable: whether a candidate feed end point can be pushed onto the
non-empty segment buffer without flushing.  The source dereferences
`chained_points().back()`; callers guarantee the buffer is non-empty (the
`none` branch is unreachable and conservatively answers false). -/
def linkable (env : ExtEnv) (s : St) (p : Pose) : Bool :=
  match s.points.getLast? with
  | none => false
  | some pos =>
    if s.cfg.motionMode ≠ MotionMode.continuous ∨ s.cfg.naivecamTolerance = 0
      then false
    else if s.points.length > 100 then false
    else if p.a ≠ pos.a then false
    else if p.b ≠ pos.b then false
    else if p.c ≠ pos.c then false
    else if p.u ≠ pos.u then false
    else if p.v ≠ pos.v then false
    else if p.w ≠ pos.w then false
    else if p.x = s.cfg.endPoint.x ∧ p.y = s.cfg.endPoint.y ∧
        p.z = s.cfg.endPoint.z then false
    else
      s.points.all (fun it =>
        let M : V3 := ⟨p.x - s.cfg.endPoint.x, p.y - s.cfg.endPoint.y,
                       p.z - s.cfg.endPoint.z⟩
        let B : V3 := ⟨s.cfg.endPoint.x, s.cfg.endPoint.y, s.cfg.endPoint.z⟩
        let P : V3 := ⟨it.x, it.y, it.z⟩
        !(magGtTol (segDistSq B M P) s.cfg.naivecamTolerance))

/-- see_segment: flush first when the buffer is non-empty and the candidate
is not linkable; push the candidate; flush immediately when the candidate
changed any of a,b,c,u,v,w relative to `endPoint`. -/
def see_segment (env : ExtEnv) (s : St) (line_number : Int) (p : Pose) :
    St × List Msg :=
  let ep := s.cfg.endPoint
  let changed_abc := p.a ≠ ep.a ∨ p.b ≠ ep.b ∨ p.c ≠ ep.c
  let changed_uvw := p.u ≠ ep.u ∨ p.v ≠ ep.v ∨ p.w ≠ ep.w
  let r1 :=
    if s.points ≠ [] ∧ linkable env s p = false then flush_segments env s
    else (s, [])
  let s2 : St := ⟨r1.1.cfg, r1.1.points ++ [Pt.ofPose p line_number]⟩
  if changed_abc ∨ changed_uvw then
    let r2 := flush_segments env s2
    (r2.1, r1.2 ++ r2.2)
  else (s2, r1.2)

/-- FINISH: flush the segment buffer. -/
def FINISH (env : ExtEnv) (s : St) : St × List Msg := flush_segments env s

/-- STRAIGHT_FEED: convert the programmed coordinates to internal units,
rotate and offset, then hand the point to the segment buffer. -/
def STRAIGHT_FEED (env : ExtEnv) (s : St) (line_number : Int) (p : Pose) :
    St × List Msg :=
  let p1 := from_prog s.cfg.lengthUnits p
  let p2 := rotate_and_offset_pos env s.cfg p1
  see_segment env s line_number p2

/-- START_SPEED_FEED_SYNCH: flush, append a spindle-sync message carrying
`TO_EXT_LEN(FROM_PROG_LEN(feed_per_revolution))`, set `synched`. -/
def START_SPEED_FEED_SYNCH (env : ExtEnv) (s : St)
    (feed_per_revolution : ℚ) (velocity_mode : Bool) : St × List Msg :=
  let r := flush_segments env s
  (⟨{ r.1.cfg with synched := true }, r.1.points⟩,
   r.2 ++ [Msg.spindleSync
     (from_prog_len r.1.cfg.lengthUnits feed_per_revolution * env.extLen)
     velocity_mode])

/-- STOP_SPEED_FEED_SYNCH: flush, append a zero spindle-sync message, clear
`synched`. -/
def STOP_SPEED_FEED_SYNCH (env : ExtEnv) (s : St) : St × List Msg :=
  let r := flush_segments env s
  (⟨{ r.1.cfg with synched := false }, r.1.points⟩,
   r.2 ++ [Msg.spindleSync 0 false])

/-- SET_FEED_MODE: flush, store the mode, and stop synch when the new mode
is 0. -/
def SET_FEED_MODE (env : ExtEnv) (s : St) (mode : Int) : St × List Msg :=
  let r := flush_segments env s
  let s1 : St := ⟨{ r.1.cfg with feed_mode := mode }, r.1.points⟩
  if mode = 0 then
    let r2 := STOP_SPEED_FEED_SYNCH env s1
    (r2.1, r.2 ++ r2.2)
  else (s1, r.2)

/-- SET_FEED_RATE: in synched feed mode, start synch at the given rate and
record it verbatim; otherwise convert from per-minute program units to
per-second internal units, flush if either converted rate changed, and store
both. -/
def SET_FEED_RATE (env : ExtEnv) (s : St) (rate : ℚ) : St × List Msg :=
  if s.cfg.feed_mode ≠ 0 then
    let r := START_SPEED_FEED_SYNCH env s rate true
    (⟨{ r.1.cfg with linearFeedRate := rate }, r.1.points⟩, r.2)
  else
    let perSec := rate / 60
    let newLinear := from_prog_len s.cfg.lengthUnits perSec
    let newAngular := perSec
    let r :=
      if newLinear ≠ s.cfg.linearFeedRate ∨ newAngular ≠ s.cfg.angularFeedRate
        then flush_segments env s
      else (s, [])
    (⟨{ r.1.cfg with
          linearFeedRate := newLinear, angularFeedRate := newAngular },
      r.1.points⟩, r.2)

/-- SET_XY_ROTATION: append the rotation message and store the angle; the
source does not flush the segment buffer here. -/
def SET_XY_ROTATION (s : St) (t : ℚ) : St × List Msg :=
  (⟨{ s.cfg with xy_rotation := t }, s.points⟩, [Msg.setRotation t])

/-- USE_LENGTH_UNITS: store the program length units (and mirror them into
the external status); the source does not flush the segment buffer here. -/
def USE_LENGTH_UNITS (s : St) (in_unit : CanonUnits) : St × List Msg :=
  (⟨{ s.cfg with lengthUnits := in_unit }, s.points⟩, [])

/-- SET_MOTION_CONTROL_MODE: flush, store mode and converted tolerance, emit
a term-cond message (BLEND with the externalised tolerance for CONTINUOUS,
STOP otherwise; the tolerance field keeps its zero default in the STOP
case). -/
def SET_MOTION_CONTROL_MODE (env : ExtEnv) (s : St) (mode : MotionMode)
    (tolerance : ℚ) : St × List Msg :=
  let r := flush_segments env s
  let mt := from_prog_len r.1.cfg.lengthUnits tolerance
  let s1 : St :=
    ⟨{ r.1.cfg with motionMode := mode, motionTolerance := mt }, r.1.points⟩
  let msg :=
    match mode with
    | MotionMode.continuous => Msg.setTermCond TermCond.blend (mt * env.extLen)
    | _ => Msg.setTermCond TermCond.stop 0
  (s1, r.2 ++ [msg])

/-- SET_NAIVECAM_TOLERANCE: store the converted tolerance; no flush, no
message. -/
def SET_NAIVECAM_TOLERANCE (s : St) (tolerance : ℚ) : St × List Msg :=
  (⟨{ s.cfg with naivecamTolerance :=
        from_prog_len s.cfg.lengthUnits tolerance }, s.points⟩, [])

/-- SET_SPINDLE_MODE: store the CSS maximum; no flush, no message. -/
def SET_SPINDLE_MODE (s : St) (css_max : ℚ) : St × List Msg :=
  (⟨{ s.cfg with css_maximum := css_max }, s.points⟩, [])

/-- START_SPINDLE_CLOCKWISE: flush; in CSS mode recompute `css_numerator` as
`12/(2π)·spindleSpeed·TO_EXT_LEN(25.4)` for inches or
`1000/(2π)·spindleSpeed·TO_EXT_LEN(1)` otherwise and emit the speed message
carrying `css_maximum`, the numerator and the externalised x offset;
otherwise emit the plain speed and zero the numerator. -/
def START_SPINDLE_CLOCKWISE (env : ExtEnv) (s : St) : St × List Msg :=
  let r := flush_segments env s
  let cfg := r.1.cfg
  if cfg.css_maximum ≠ 0 then
    let num :=
      if cfg.lengthUnits = CanonUnits.inches then
        12 / (2 * env.piV) * cfg.spindleSpeed * (254 / 10 * env.extLen)
      else 1000 / (2 * env.piV) * cfg.spindleSpeed * (1 * env.extLen)
    (⟨{ cfg with css_numerator := num }, r.1.points⟩,
     r.2 ++ [Msg.spindleOn cfg.css_maximum num
       ((cfg.programOrigin.x + cfg.toolOffset.x) * env.extLen)])
  else
    (⟨{ cfg with css_numerator := 0 }, r.1.points⟩,
     r.2 ++ [Msg.spindleOn cfg.spindleSpeed 0 0])

/-- START_SPINDLE_COUNTERCLOCKWISE: like clockwise but with negated speed
and numerator; note the source computes the numerator here WITHOUT the
`TO_EXT_LEN(25.4)` (respectively `TO_EXT_LEN(1)`) factor that the clockwise
variant applies. -/
def START_SPINDLE_COUNTERCLOCKWISE (env : ExtEnv) (s : St) : St × List Msg :=
  let r := flush_segments env s
  let cfg := r.1.cfg
  if cfg.css_maximum ≠ 0 then
    let num :=
      if cfg.lengthUnits = CanonUnits.inches then
        -12 / (2 * env.piV) * cfg.spindleSpeed
      else -1000 / (2 * env.piV) * cfg.spindleSpeed
    (⟨{ cfg with css_numerator := num }, r.1.points⟩,
     r.2 ++ [Msg.spindleOn cfg.css_maximum num
       ((cfg.programOrigin.x + cfg.toolOffset.x) * env.extLen)])
  else
    (⟨{ cfg with css_numerator := 0 }, r.1.points⟩,
     r.2 ++ [Msg.spindleOn (-cfg.spindleSpeed) 0 0])

/-- SET_SPINDLE_SPEED: store the speed, flush, and emit the speed message;
in CSS mode the numerator is recomputed, again WITHOUT the external-length
factor of the clockwise variant. -/
def SET_SPINDLE_SPEED (env : ExtEnv) (s : St) (rpm : ℚ) : St × List Msg :=
  let s0 : St := ⟨{ s.cfg with spindleSpeed := rpm }, s.points⟩
  let r := flush_segments env s0
  let cfg := r.1.cfg
  if cfg.css_maximum ≠ 0 then
    let num :=
      if cfg.lengthUnits = CanonUnits.inches then
        12 / (2 * env.piV) * cfg.spindleSpeed
      else 1000 / (2 * env.piV) * cfg.spindleSpeed
    (⟨{ cfg with css_numerator := num }, r.1.points⟩,
     r.2 ++ [Msg.spindleSpeedMsg cfg.css_maximum num
       ((cfg.programOrigin.x + cfg.toolOffset.x) * env.extLen)])
  else
    (⟨{ cfg with css_numerator := 0 }, r.1.points⟩,
     r.2 ++ [Msg.spindleSpeedMsg cfg.spindleSpeed 0 0])

/-- STOP_SPINDLE_TURNING: flush and emit the spindle-off message. -/
def STOP_SPINDLE_TURNING (env : ExtEnv) (s : St) : St × List Msg :=
  let r := flush_segments env s
  (r.1, r.2 ++ [Msg.spindleOff])

/-- RIGID_TAP: convert and transform the XYZ target (the six angular/UVW
reference arguments of the source all alias one dead scratch variable, so
only x,y,z of the transform are observable); compute velocity and
acceleration against the CURRENT `endPoint`, whose a,b,c,u,v,w also fill the
message position; flush; append the message when velocity and acceleration
are non-zero.  The function never writes `endPoint` itself — the executor
returns to the start point. -/
def RIGID_TAP (env : ExtEnv) (s : St) (line_number : Int) (x y z : ℚ) :
    St × List Msg :=
  let p1 := from_prog s.cfg.lengthUnits ⟨x, y, z, 0, 0, 0, 0, 0, 0⟩
  let p2 := rotate_and_offset_pos env s.cfg p1
  let ep := s.cfg.endPoint
  let target : Pose := ⟨p2.x, p2.y, p2.z, ep.a, ep.b, ep.c, ep.u, ep.v, ep.w⟩
  let r1 := getStraightVelocity env s.cfg target
  let vel := r1.1
  let ini_maxvel := vel
  let cfg1 := { s.cfg with cartesian_move := r1.2.1, angular_move := r1.2.2 }
  let r2 := getStraightAcceleration env cfg1 target
  let acc := r2.1
  let cfg2 := { cfg1 with cartesian_move := r2.2.1, angular_move := r2.2.2 }
  let msgPos := to_ext_pose env target
  let msgVel := toExtVel env cfg2 vel
  let msgIniMaxvel := toExtVel env cfg2 ini_maxvel
  let msgAcc := toExtVel env cfg2 acc
  let r3 := flush_segments env ⟨cfg2, s.points⟩
  let out :=
    if vel ≠ 0 ∧ acc ≠ 0 then
      r3.2 ++ [Msg.rigidTap line_number msgPos msgVel msgIniMaxvel msgAcc]
    else r3.2
  (r3.1, out)

/-- DIGITAL_INPUT discriminator of the WAIT API.  Modelled from the spec:
the numeric values live in `canon.hh`, which is not part of this repository
snapshot; only their distinctness is observable. -/
def DIGITAL_INPUT : Int := 1

/-- ANALOG_INPUT discriminator of the WAIT API.  Modelled from the spec:
the numeric values live in `canon.hh`, which is not part of this repository
snapshot; only their distinctness is observable. -/
def ANALOG_INPUT : Int := 2

/-- WAIT: reject a digital index outside [0, EMCMOT_MAX_DIO) or an analog
index outside [0, EMCMOT_MAX_AIO) with -1 before touching any state;
otherwise flush, append the input-wait message and return 0. -/
def WAIT (env : ExtEnv) (s : St) (index input_type wait_type : Int)
    (timeout : ℚ) : (St × List Msg) × Int :=
  if input_type = DIGITAL_INPUT ∧ (index < 0 ∨ index ≥ env.maxDIO) then
    ((s, []), -1)
  else if input_type = ANALOG_INPUT ∧ (index < 0 ∨ index ≥ env.maxAIO) then
    ((s, []), -1)
  else
    let r := flush_segments env s
    ((r.1, r.2 ++ [Msg.auxInputWait index input_type wait_type timeout]), 0)

/-- GET_EXTERNAL_DIGITAL_INPUT: -1 on a bad index or on input timeout,
otherwise 0/1 from the external digital-input snapshot; the `def` argument
is never read. -/
def GET_EXTERNAL_DIGITAL_INPUT (env : ExtEnv) (index deflt : Int) : Int :=
  if index < 0 ∨ index ≥ env.maxDIO then -1
  else if env.inputTimeout = true then -1
  else if env.synchDI index ≠ 0 then 1 else 0

/-- Pose with real coordinates, for the exact-real statement of the rotation
round trip (claim about `rotate_and_offset_pos` / `unoffset_and_unrotate_pos`
over real arithmetic, where the libm cos/sin are the genuine functions). -/
structure PoseR where
  x : ℝ
  y : ℝ
  z : ℝ
  a : ℝ
  b : ℝ
  c : ℝ
  u : ℝ
  v : ℝ
  w : ℝ

/-- D2R of the source: degrees to radians. -/
noncomputable def D2R (theta : ℝ) : ℝ := theta * Real.pi / 180

/-- rotate, over the reals with the genuine cos/sin. -/
noncomputable def rotateR (x y theta : ℝ) : ℝ × ℝ :=
  (x * Real.cos (D2R theta) - y * Real.sin (D2R theta),
   x * Real.sin (D2R theta) + y * Real.cos (D2R theta))

/-- rotate_and_offset_pos over the reals: rotate x,y by `xy_rotation`, then
add `programOrigin + toolOffset` on all nine coordinates. -/
noncomputable def rotate_and_offset_posR (rot : ℝ) (origin toff p : PoseR) :
    PoseR :=
  let r := rotateR p.x p.y rot
  ⟨r.1 + origin.x + toff.x, r.2 + origin.y + toff.y, p.z + origin.z + toff.z,
   p.a + origin.a + toff.a, p.b + origin.b + toff.b, p.c + origin.c + toff.c,
   p.u + origin.u + toff.u, p.v + origin.v + toff.v, p.w + origin.w + toff.w⟩

/-- unoffset_and_unrotate_pos over the reals: subtract the offsets from x,y,
rotate them back by `-xy_rotation`, and subtract the offsets from the other
seven coordinates. -/
noncomputable def unoffset_and_unrotate_posR (rot : ℝ) (origin toff p : PoseR) :
    PoseR :=
  let r := rotateR (p.x - origin.x - toff.x) (p.y - origin.y - toff.y) (-rot)
  ⟨r.1, r.2, p.z - origin.z - toff.z,
   p.a - origin.a - toff.a, p.b - origin.b - toff.b, p.c - origin.c - toff.c,
   p.u - origin.u - toff.u, p.v - origin.v - toff.v, p.w - origin.w - toff.w⟩

/-- Concrete external environment of the end-to-end scenarios of the spec
(axis mask XYZ, per-axis limits 100/1000/10000, external units 1, digital
sizes 4).  The concrete runs below only evaluate `cosD`/`sinD` at angle 0,
where the genuine cosine and sine are 1 and 0; `piV` stands in for the libm
constant `M_PI` (its exact value is irrelevant to every statement made with
this environment). -/
def envW : ExtEnv where
  axisMask := 7
  maxVel := fun _ => 100
  maxAcc := fun _ => 1000
  maxJerk := fun _ => 10000
  extLen := 1
  extAng := 1
  cosD := fun _ => 1
  sinD := fun _ => 0
  piV := 355 / 113
  uninitVel := 0
  maxDIO := 4
  maxAIO := 4
  inputTimeout := false
  synchDI := fun _ => 0

/-- Initial canon state of the scenarios: all-zero origin, offsets and end
point, mm units, CONTINUOUS motion, naivecam tolerance 0.1, empty buffer. -/
def st0 : St where
  cfg :=
    { endPoint := Pose.zero
      programOrigin := Pose.zero
      toolOffset := Pose.zero
      xy_rotation := 0
      lengthUnits := CanonUnits.mm
      motionMode := MotionMode.continuous
      motionTolerance := 0
      naivecamTolerance := 1 / 10
      feed_mode := 0
      linearFeedRate := 0
      angularFeedRate := 0
      spindleSpeed := 0
      css_maximum := 0
      css_numerator := 0
      cartesian_move := false
      angular_move := false
      synched := false }
  points := []

/-- Scenario state with one pending feed point (10,0,0) at line 10 in the
segment buffer. -/
def stBuf : St := ⟨st0.cfg, [⟨10, 0, 0, 0, 0, 0, 0, 0, 0, 10⟩]⟩

/-- Scenario state for constant-surface-speed spindle commands: inch program
units, cssMaximum 1, empty buffer. -/
def stCss : St :=
  ⟨{ st0.cfg with css_maximum := 1, lengthUnits := CanonUnits.inches }, []⟩

/-- Tag test: is this message a linear move? -/
def Msg.isLinearMove : Msg → Bool
  | Msg.linearMove _ _ _ _ _ _ _ _ => true
  | _ => false

/-- Checker for the rigid-tap frame property: every rigid-tap message must
carry the a,b,c,u,v,w coordinates of the given (pre-call) end point,
externalised; all other messages pass vacuously. -/
def rigidTapFromEndPoint (env : ExtEnv) (ep : Pose) : Msg → Bool
  | Msg.rigidTap _ pos _ _ _ =>
      decide (pos.a = ep.a * env.extAng ∧ pos.b = ep.b * env.extAng ∧
        pos.c = ep.c * env.extAng ∧ pos.u = ep.u * env.extLen ∧
        pos.v = ep.v * env.extLen ∧ pos.w = ep.w * env.extLen)
  | _ => true

/-- The real, square-root form of the claim's per-point distance condition:
the distance from buffered point P to the clamped projection onto the
segment from the end point B towards the candidate (direction M) is at most
the naivecam tolerance.  This is the specification-side reading of the
fusion distance test, written with a genuine square root. -/
def chordDistLe (env : ExtEnv) (s : St) (p : Pose) (it : Pt) : Prop :=
  Real.sqrt ((segDistSq
      ⟨s.cfg.endPoint.x, s.cfg.endPoint.y, s.cfg.endPoint.z⟩
      ⟨p.x - s.cfg.endPoint.x, p.y - s.cfg.endPoint.y,
       p.z - s.cfg.endPoint.z⟩
      ⟨it.x, it.y, it.z⟩ : ℚ) : ℝ) ≤ (s.cfg.naivecamTolerance : ℝ)

/-- The claim's linkability conditions apart from the buffer-size bound:
CONTINUOUS mode with positive tolerance, a,b,c,u,v,w equal to the last
buffered entry, (x,y,z) different from the end point, and every buffered
point within the tolerance of the candidate chord. -/
def linkableConds (env : ExtEnv) (s : St) (p : Pose) : Prop :=
  s.cfg.motionMode = MotionMode.continuous ∧ 0 < s.cfg.naivecamTolerance ∧
  (∃ pos, s.points.getLast? = some pos ∧ p.a = pos.a ∧ p.b = pos.b ∧
    p.c = pos.c ∧ p.u = pos.u ∧ p.v = pos.v ∧ p.w = pos.w) ∧
  ¬(p.x = s.cfg.endPoint.x ∧ p.y = s.cfg.endPoint.y ∧
    p.z = s.cfg.endPoint.z) ∧
  ∀ it ∈ s.points, chordDistLe env s p it

/-- The linkability predicate exactly as the claim states it, with the
buffer-size condition `size < 100`. -/
def linkableSpecStrict (env : ExtEnv) (s : St) (p : Pose) : Prop :=
  linkableConds env s p ∧ s.points.length < 100

/-- The linkability predicate with the size condition the code actually
enforces, `size ≤ 100`. -/
def linkableSpecAmended (env : ExtEnv) (s : St) (p : Pose) : Prop :=
  linkableConds env s p ∧ s.points.length ≤ 100

/-- Candidate feed point (1,0,0) for the linkability counterexample. -/
def cand1 : Pose := ⟨1, 0, 0, 0, 0, 0, 0, 0, 0⟩

/-- The buffer entry produced by feeding to (1,0,0) at line 1. -/
def ptc : Pt := ⟨1, 0, 0, 0, 0, 0, 0, 0, 0, 1⟩

/-- Buffer state holding exactly 100 copies of the point (1,0,0) — all of
them exactly on the chord towards the candidate (1,0,0). -/
def st100 : St := ⟨st0.cfg, List.replicate 100 ptc⟩

/-- Repeated STRAIGHT_FEED(1,0,0) from the scenario start state: every feed
is linkable to the previous ones, so the buffer grows by one entry per
call. -/
def feedRun : Nat → St
  | 0 => st0
  | n + 1 => (STRAIGHT_FEED envW (feedRun n) 1 cand1).1

/-- Scenario 1 of the spec: SET_FEED_RATE(600), then
STRAIGHT_FEED(line=10, x=10, all other coordinates 0), then a flush; the
final state together with every message emitted along the way, in order. -/
def scn1 : St × List Msg :=
  let r1 := SET_FEED_RATE envW st0 600
  let r2 := STRAIGHT_FEED envW r1.1 10 ⟨10, 0, 0, 0, 0, 0, 0, 0, 0⟩
  let r3 := FINISH envW r2.1
  (r3.1, r1.2 ++ r2.2 ++ r3.2)

/-- A flush on an empty buffer does nothing. -/
theorem flush_segments_of_nil (env : ExtEnv) (s : St) (h : s.points = []) :
    flush_segments env s = (s, []) := by
  unfold flush_segments
  rw [h]
  rfl

/-- A flush always leaves the buffer empty. -/
theorem flush_segments_points_nil (env : ExtEnv) (s : St) :
    (flush_segments env s).1.points = [] := by
  unfold flush_segments
  cases h : s.points.getLast? with
  | none => simpa using List.getLast?_eq_none_iff.mp h
  | some pos => rfl

/-- C6: after `flush_segments` returns the segment buffer is empty, and
flushing is idempotent: a second consecutive flush emits no message and
leaves the state exactly as the first flush produced it. -/
theorem flush_segments_idempotent (env : ExtEnv) (s : St) :
    (flush_segments env s).1.points = [] ∧
    flush_segments env (flush_segments env s).1 =
      ((flush_segments env s).1, []) :=
  ⟨flush_segments_points_nil env s,
   flush_segments_of_nil env _ (flush_segments_points_nil env s)⟩

/-- C5: applying `rotate_and_offset_pos` and then
`unoffset_and_unrotate_pos` returns the original pose exactly, over real
arithmetic, for every rotation angle and every program origin and tool
offset. -/
theorem rotation_round_trip (rot : ℝ) (origin toff p : PoseR) :
    unoffset_and_unrotate_posR rot origin toff
      (rotate_and_offset_posR rot origin toff p) = p := by
  obtain ⟨x, y, z, a, b, c, u, v, w⟩ := p
  have hpy := Real.sin_sq_add_cos_sq (rot * Real.pi / 180)
  have hneg : -rot * Real.pi / 180 = -(rot * Real.pi / 180) := by ring
  simp only [rotate_and_offset_posR, unoffset_and_unrotate_posR, rotateR, D2R,
    hneg, Real.cos_neg, Real.sin_neg, PoseR.mk.injEq]
  refine ⟨?_, ?_, by ring, by ring, by ring, by ring, by ring, by ring,
    by ring⟩
  · linear_combination x * hpy
  · linear_combination y * hpy

/-- C10: the digital-input query ignores its default argument and always
answers -1, 0 or 1. -/
theorem digital_input_ignores_default (env : ExtEnv) (index d1 d2 : Int) :
    GET_EXTERNAL_DIGITAL_INPUT env index d1 =
      GET_EXTERNAL_DIGITAL_INPUT env index d2 ∧
    (GET_EXTERNAL_DIGITAL_INPUT env index d1 = -1 ∨
     GET_EXTERNAL_DIGITAL_INPUT env index d1 = 0 ∨
     GET_EXTERNAL_DIGITAL_INPUT env index d1 = 1) := by
  refine ⟨rfl, ?_⟩
  unfold GET_EXTERNAL_DIGITAL_INPUT
  split
  · exact Or.inl rfl
  · split
    · exact Or.inl rfl
    · split
      · exact Or.inr (Or.inr rfl)
      · exact Or.inr (Or.inl rfl)

/-- C9: WAIT rejects a digital index outside [0, maxDIO) or an analog index
outside [0, maxAIO) with -1 while leaving the state untouched and emitting
nothing; in every other case it flushes, appends exactly one input-wait
message carrying its four arguments, and returns 0. -/
theorem wait_bounds_atomic (env : ExtEnv) (s : St)
    (index input_type wait_type : Int) (timeout : ℚ) :
    (((input_type = DIGITAL_INPUT ∧ (index < 0 ∨ index ≥ env.maxDIO)) ∨
      (input_type = ANALOG_INPUT ∧ (index < 0 ∨ index ≥ env.maxAIO))) →
      WAIT env s index input_type wait_type timeout = ((s, []), -1)) ∧
    (¬((input_type = DIGITAL_INPUT ∧ (index < 0 ∨ index ≥ env.maxDIO)) ∨
       (input_type = ANALOG_INPUT ∧ (index < 0 ∨ index ≥ env.maxAIO))) →
      WAIT env s index input_type wait_type timeout =
        (((flush_segments env s).1, (flush_segments env s).2 ++
          [Msg.auxInputWait index input_type wait_type timeout]), 0)) := by
  constructor
  · intro hbad
    rcases hbad with hd | ha
    · unfold WAIT
      rw [if_pos hd]
    · unfold WAIT
      have hne : ¬(input_type = DIGITAL_INPUT ∧
          (index < 0 ∨ index ≥ env.maxDIO)) := by
        rintro ⟨hdig, -⟩
        rw [hdig] at ha
        exact absurd ha.1 (by decide)
      rw [if_neg hne, if_pos ha]
  · intro hgood
    unfold WAIT
    rw [if_neg (fun h => hgood (Or.inl h)), if_neg (fun h => hgood (Or.inr h))]

/-- Witness for the WAIT theorem: a digital index 7 with maxDIO = 4 is
rejected atomically, and a digital index 2 is accepted, flushes the (empty)
buffer and emits the one wait message. -/
theorem wait_bounds_atomic_witness :
    WAIT envW st0 7 DIGITAL_INPUT 0 (1 : ℚ) = ((st0, []), -1) ∧
    WAIT envW st0 2 DIGITAL_INPUT 0 (1 : ℚ) =
      ((st0, [Msg.auxInputWait 2 DIGITAL_INPUT 0 1]), 0) := by
  constructor
  · exact (wait_bounds_atomic envW st0 7 DIGITAL_INPUT 0 1).1
      (Or.inl ⟨rfl, by decide⟩)
  · have h := (wait_bounds_atomic envW st0 2 DIGITAL_INPUT 0 1).2
      (by decide)
    rw [h, flush_segments_of_nil envW st0 rfl]
    rfl

/-- The end point produced by a flush does not depend on the configuration
fields other than `endPoint` itself (for states sharing the same buffer). -/
theorem flush_segments_endPoint_congr (env : ExtEnv) (cfg cfg' : CanonCfg)
    (pts : List Pt) (h : cfg.endPoint = cfg'.endPoint) :
    (flush_segments env ⟨cfg, pts⟩).1.cfg.endPoint =
      (flush_segments env ⟨cfg', pts⟩).1.cfg.endPoint := by
  unfold flush_segments
  cases hl : pts.getLast? with
  | none => simpa using h
  | some pos => rfl

/-- An `all` check on a conditional singleton emission. -/
theorem all_ite_singleton {c : Prop} [Decidable c] (x : Msg) (p : Msg → Bool)
    (h : p x = true) : (if c then [x] else []).all p = true := by
  split
  · simpa using h
  · rfl

/-- An `all` check on a conditionally extended message list. -/
theorem all_ite_append {c : Prop} [Decidable c] (l tail : List Msg)
    (p : Msg → Bool) (hl : l.all p = true) (ht : tail.all p = true) :
    (if c then l ++ tail else l).all p = true := by
  split
  · rw [List.all_append, hl, ht]
    rfl
  · exact hl

/-- Every message a flush emits is a linear move. -/
theorem flush_segments_all_linear (env : ExtEnv) (s : St) :
    (flush_segments env s).2.all Msg.isLinearMove = true := by
  unfold flush_segments
  cases hl : s.points.getLast? with
  | none => rfl
  | some pos =>
    simp only [hl]
    exact all_ite_singleton _ _ rfl

/-- A checker that accepts every linear move accepts every list of messages
consisting only of linear moves. -/
theorem all_of_all_linear (p : Msg → Bool)
    (hp : ∀ m, Msg.isLinearMove m = true → p m = true) (l : List Msg)
    (hl : l.all Msg.isLinearMove = true) : l.all p = true := by
  rw [List.all_eq_true] at hl ⊢
  exact fun m hm => hp m (hl m hm)

/-- C7: RIGID_TAP never writes the end point — after it returns, `endPoint`
is exactly what the internal buffer flush left there — and every rigid-tap
message it emits takes its a,b,c,u,v,w from the current `endPoint`, not from
the command. -/
theorem rigid_tap_frame (env : ExtEnv) (s : St) (line_number : Int)
    (x y z : ℚ) :
    (RIGID_TAP env s line_number x y z).1.cfg.endPoint =
      (flush_segments env s).1.cfg.endPoint ∧
    (RIGID_TAP env s line_number x y z).2.all
      (rigidTapFromEndPoint env s.cfg.endPoint) = true := by
  obtain ⟨cfg, pts⟩ := s
  constructor
  · unfold RIGID_TAP
    exact flush_segments_endPoint_congr env _ cfg pts rfl
  · unfold RIGID_TAP
    simp only
    refine all_ite_append _ _ _ ?_ ?_
    · refine all_of_all_linear _ ?_ _ (flush_segments_all_linear env _)
      intro m hm
      cases m <;> simp_all [Msg.isLinearMove, rigidTapFromEndPoint]
    · simp [rigidTapFromEndPoint, to_ext_pose]

/-- The messages a flush emits do not depend on `xy_rotation` (the source
rotates feed coordinates when they are issued, before buffering). -/
theorem flush_segments_xyrot (env : ExtEnv) (cfg : CanonCfg) (pts : List Pt)
    (t : ℚ) :
    (flush_segments env ⟨{ cfg with xy_rotation := t }, pts⟩).2 =
      (flush_segments env ⟨cfg, pts⟩).2 := by
  unfold flush_segments
  cases hl : pts.getLast? with
  | none => rfl
  | some pos => rfl

/-- The messages a flush emits do not depend on `lengthUnits` (the source
converts feed coordinates to internal units when they are issued, before
buffering). -/
theorem flush_segments_units (env : ExtEnv) (cfg : CanonCfg) (pts : List Pt)
    (u : CanonUnits) :
    (flush_segments env ⟨{ cfg with lengthUnits := u }, pts⟩).2 =
      (flush_segments env ⟨cfg, pts⟩).2 := by
  unfold flush_segments
  cases hl : pts.getLast? with
  | none => rfl
  | some pos => rfl

/-- C4 (amended): SET_XY_ROTATION and USE_LENGTH_UNITS do not flush the
segment buffer — the buffer survives them unchanged — but a later flush of
the moves buffered before the change emits exactly the messages it would
have emitted before the change, because feed coordinates are transformed at
issue time. -/
theorem set_rotation_units_no_flush (env : ExtEnv) (s : St) (t : ℚ)
    (u : CanonUnits) :
    (SET_XY_ROTATION s t).1.points = s.points ∧
    (SET_XY_ROTATION s t).2 = [Msg.setRotation t] ∧
    (SET_XY_ROTATION s t).1.cfg = { s.cfg with xy_rotation := t } ∧
    (USE_LENGTH_UNITS s u).1.points = s.points ∧
    (USE_LENGTH_UNITS s u).2 = [] ∧
    (USE_LENGTH_UNITS s u).1.cfg = { s.cfg with lengthUnits := u } ∧
    (flush_segments env (SET_XY_ROTATION s t).1).2 =
      (flush_segments env s).2 ∧
    (flush_segments env (USE_LENGTH_UNITS s u).1).2 =
      (flush_segments env s).2 := by
  obtain ⟨cfg, pts⟩ := s
  exact ⟨rfl, rfl, rfl, rfl, rfl, rfl, flush_segments_xyrot env cfg pts t,
    flush_segments_units env cfg pts u⟩

/-- C4 counterexample: with one feed point pending, the buffer is NOT empty
after SET_XY_ROTATION or USE_LENGTH_UNITS returns — neither mutator flushes
the segment buffer before installing the new state. -/
theorem set_rotation_units_counterexample :
    (SET_XY_ROTATION stBuf 90).1.points ≠ [] ∧
    (USE_LENGTH_UNITS stBuf CanonUnits.inches).1.points ≠ [] := by
  decide

/-- C3 (amended): when `cssMaximum` is non-zero each spindle command emits
one speed message carrying `cssMaximum`, the fresh `cssNumerator` and the
externalised x offset `TO_EXT_LEN(programOrigin.x + toolOffset.x)`, and
stores that numerator; but the three commands do NOT share one formula:
START_SPINDLE_CLOCKWISE uses `12/(2π)·spindleSpeed·TO_EXT_LEN(25.4)` for
inches and `1000/(2π)·spindleSpeed·TO_EXT_LEN(1)` for mm, while
START_SPINDLE_COUNTERCLOCKWISE and SET_SPINDLE_SPEED omit the
external-length factor entirely: `∓12/(2π)·spindleSpeed` for inches,
`∓1000/(2π)·spindleSpeed` for mm (stated for an empty segment buffer so that
the speed message is the only emission). -/
theorem spindle_css_numerator (env : ExtEnv) (s : St) (rpm : ℚ)
    (hb : s.points = []) (hcss : s.cfg.css_maximum ≠ 0) :
    ((SET_SPINDLE_SPEED env s rpm).2 =
      [Msg.spindleSpeedMsg s.cfg.css_maximum
        (if s.cfg.lengthUnits = CanonUnits.inches then
          12 / (2 * env.piV) * rpm
         else 1000 / (2 * env.piV) * rpm)
        ((s.cfg.programOrigin.x + s.cfg.toolOffset.x) * env.extLen)] ∧
     (SET_SPINDLE_SPEED env s rpm).1.cfg.css_numerator =
      (if s.cfg.lengthUnits = CanonUnits.inches then
        12 / (2 * env.piV) * rpm
       else 1000 / (2 * env.piV) * rpm)) ∧
    ((START_SPINDLE_CLOCKWISE env s).2 =
      [Msg.spindleOn s.cfg.css_maximum
        (if s.cfg.lengthUnits = CanonUnits.inches then
          12 / (2 * env.piV) * s.cfg.spindleSpeed * (254 / 10 * env.extLen)
         else 1000 / (2 * env.piV) * s.cfg.spindleSpeed * (1 * env.extLen))
        ((s.cfg.programOrigin.x + s.cfg.toolOffset.x) * env.extLen)] ∧
     (START_SPINDLE_CLOCKWISE env s).1.cfg.css_numerator =
      (if s.cfg.lengthUnits = CanonUnits.inches then
        12 / (2 * env.piV) * s.cfg.spindleSpeed * (254 / 10 * env.extLen)
       else 1000 / (2 * env.piV) * s.cfg.spindleSpeed * (1 * env.extLen))) ∧
    ((START_SPINDLE_COUNTERCLOCKWISE env s).2 =
      [Msg.spindleOn s.cfg.css_maximum
        (if s.cfg.lengthUnits = CanonUnits.inches then
          -12 / (2 * env.piV) * s.cfg.spindleSpeed
         else -1000 / (2 * env.piV) * s.cfg.spindleSpeed)
        ((s.cfg.programOrigin.x + s.cfg.toolOffset.x) * env.extLen)] ∧
     (START_SPINDLE_COUNTERCLOCKWISE env s).1.cfg.css_numerator =
      (if s.cfg.lengthUnits = CanonUnits.inches then
        -12 / (2 * env.piV) * s.cfg.spindleSpeed
       else -1000 / (2 * env.piV) * s.cfg.spindleSpeed)) := by
  obtain ⟨cfg, pts⟩ := s
  have hb2 : pts = [] := hb
  subst hb2
  have hcss2 : cfg.css_maximum ≠ 0 := hcss
  unfold SET_SPINDLE_SPEED START_SPINDLE_CLOCKWISE
    START_SPINDLE_COUNTERCLOCKWISE
  dsimp only
  rw [flush_segments_of_nil env _ rfl, flush_segments_of_nil env _ rfl]
  simp only [hcss2, ne_eq, not_false_eq_true, if_true, ite_not, if_neg,
    List.nil_append]
  simp [hcss2]

/-- Witness for the spindle CSS theorem at the inch CSS state with spindle
speed 2. -/
theorem spindle_css_numerator_witness :
    (SET_SPINDLE_SPEED envW stCss 2).2 =
      [Msg.spindleSpeedMsg stCss.cfg.css_maximum
        (if stCss.cfg.lengthUnits = CanonUnits.inches then
          12 / (2 * envW.piV) * 2
         else 1000 / (2 * envW.piV) * 2)
        ((stCss.cfg.programOrigin.x + stCss.cfg.toolOffset.x) *
          envW.extLen)] :=
  ((spindle_css_numerator envW stCss 2 rfl (by decide)).1).1

/-- C3 counterexample: at the inch CSS state with external length units 1,
SET_SPINDLE_SPEED(2) stores `12/(2π)·2` — NOT the claimed
`(25.4·12)/(2π)·2` (the 25.4 inch conversion is absent from this code
path). -/
theorem spindle_css_numerator_counterexample :
    (SET_SPINDLE_SPEED envW stCss 2).1.cfg.css_numerator =
      12 / (2 * envW.piV) * 2 ∧
    12 / (2 * envW.piV) * 2 ≠ 254 / 10 * 12 / (2 * envW.piV) * 2 := by
  constructor
  · decide
  · decide

/-- In the degenerate (no-motion) case every classification branch of
`getStraightVelocity` is skipped and the function returns
`MIN(vel, canon.linearFeedRate)` with `vel` still holding its indeterminate
initial value — the source declares `double vel;` without an initialiser,
unlike its siblings which start from `acc = 0.0` / `jerk = 0.0`. -/
theorem getStraightVelocity_degenerate (env : ExtEnv) (cfg : CanonCfg)
    (p : Pose) (h : straightDeltas env cfg p = Pose.zero) :
    (getStraightVelocity env cfg p).1 =
      minQ env.uninitVel cfg.linearFeedRate := by
  unfold getStraightVelocity
  rw [h]
  rfl

/-- C8: at the all-zero no-motion input with `linearFeedRate = 10`, the
value `getStraightVelocity` returns is whatever the uninitialised local
`vel` happened to hold (here 5), not the `linearFeedRate` that the source
comment says a move to nowhere should be priced at. -/
theorem degenerate_velocity_reads_uninitialised :
    (getStraightVelocity { envW with uninitVel := 5 }
        { st0.cfg with linearFeedRate := 10 } Pose.zero).1 = 5 ∧
    (5 : ℚ) ≠ 10 := by
  constructor
  · have h : straightDeltas { envW with uninitVel := 5 }
        { st0.cfg with linearFeedRate := 10 } Pose.zero = Pose.zero := by
      decide
    rw [getStraightVelocity_degenerate _ _ _ h]
    decide
  · decide

/-- Justification of the `magGtTol` embedding: over the reals, the source
comparison `sqrt s > t` coincides with `t < 0 ∨ s > t²`. -/
theorem sqrt_gt_iff_sq (s t : ℝ) : Real.sqrt s > t ↔ t < 0 ∨ s > t ^ 2 := by
  have h := Real.sqrt_le_iff (x := s) (y := t)
  constructor
  · intro hgt
    by_cases ht : t < 0
    · exact Or.inl ht
    · refine Or.inr ?_
      by_contra hle
      exact absurd (h.mpr ⟨le_of_not_lt ht, le_of_not_lt hle⟩)
        (not_le.mpr hgt)
  · intro hd
    rcases hd with ht | hs
    · exact lt_of_lt_of_le ht (Real.sqrt_nonneg s)
    · by_contra hle
      have := (h.mp (le_of_not_lt hle)).2
      exact absurd hs (not_lt.mpr this)

/-- C1 (amended): scenario 1 emits exactly one LINEAR_MOVE, at line 10 with
feed mode 0, ending at x = 10 with vel = 10, acc = 1000, iniMaxJerk = 10000
— and iniMaxVel = 10 as well: `getStraightVelocity` clamps by the feed rate
before returning, so the emitted `ini_maxvel` is the feed-clamped velocity,
not the envelope velocity 100. -/
theorem scenario1_one_linear_move :
    scn1.2 = [Msg.linearMove 10 0 ⟨10, 0, 0, 0, 0, 0, 0, 0, 0⟩
      10 10 1000 10000 MotionType.feed] := by
  decide

/-- C1 counterexample: the single linear move that scenario 1 emits carries
ini_maxvel 10 — not the claimed envelope velocity 100. -/
theorem scenario1_ini_maxvel_not_envelope :
    scn1.2 = [Msg.linearMove 10 0 ⟨10, 0, 0, 0, 0, 0, 0, 0, 0⟩
      10 10 1000 10000 MotionType.feed] ∧ (10 : ℚ) ≠ 100 := by
  constructor
  · decide
  · decide

/-- Early-return normalisation: a guard that answers false, else continues. -/
theorem ite_false_left {c : Prop} [Decidable c] (X : Bool) :
    ((if c then false else X) = true) ↔ (¬c ∧ X = true) := by
  by_cases h : c
  · simp [h]
  · simp [h]

/-- Per-point bridge: the code's pass condition (the negation of
`mag > tol`, embedded squared) holds iff the real square-root distance is at
most the tolerance. -/
theorem magGtTol_false_iff (dsq tol : ℚ) :
    ((!magGtTol dsq tol) = true) ↔ Real.sqrt (dsq : ℝ) ≤ (tol : ℝ) := by
  simp only [magGtTol, Bool.not_eq_true', decide_eq_false_iff_not, not_or,
    not_lt]
  rw [Real.sqrt_le_iff]
  constructor
  · intro h
    exact ⟨by exact_mod_cast h.1, by exact_mod_cast h.2⟩
  · intro h
    exact ⟨by exact_mod_cast h.1, by exact_mod_cast h.2⟩

/-- A linkable candidate implies the buffer held at most 100 entries (the
source rejects only `size() > 100`). -/
theorem linkable_length_le (env : ExtEnv) (s : St) (p : Pose)
    (h : linkable env s p = true) : s.points.length ≤ 100 := by
  unfold linkable at h
  cases hl : s.points.getLast? with
  | none =>
    rw [hl] at h
    exact absurd h (by simp)
  | some pos =>
    rw [hl] at h
    dsimp only at h
    by_contra hgt
    push_neg at hgt
    by_cases hc1 : s.cfg.motionMode ≠ MotionMode.continuous ∨
        s.cfg.naivecamTolerance = 0
    · rw [if_pos hc1] at h
      exact absurd h (by simp)
    · rw [if_neg hc1, if_pos hgt] at h
      exact absurd h (by simp)

/-- C2 (amended): for a non-empty buffer the candidate is linkable exactly
under the claim's conditions with the size bound relaxed to `size ≤ 100`
(the code rejects only `size() > 100`), and consequently the buffer never
holds more than 101 entries after a feed is buffered. -/
theorem linkable_characterization (env : ExtEnv) (s : St) (p : Pose)
    (line : Int) :
    (s.points ≠ [] →
      (linkable env s p = true ↔ linkableSpecAmended env s p)) ∧
    (see_segment env s line p).1.points.length ≤ 101 := by
  constructor
  · intro hne
    cases hl : s.points.getLast? with
    | none => exact absurd (List.getLast?_eq_none_iff.mp hl) hne
    | some pos =>
      have hmem : pos ∈ s.points := List.mem_of_mem_getLast? hl
      unfold linkable
      rw [hl]
      simp only [ite_false_left, List.all_eq_true, magGtTol_false_iff]
      unfold linkableSpecAmended linkableConds chordDistLe
      rw [hl]
      simp only [not_or, not_not, not_lt, Option.some.injEq]
      constructor
      · rintro ⟨⟨hmode, htol⟩, hlen, ha, hb, hc, hu, hv, hw, hxyz, hdist⟩
        have htolpos : 0 < s.cfg.naivecamTolerance := by
          rcases lt_or_gt_of_ne htol with hlt | hgt
          · have hd := hdist pos hmem
            have hnn := Real.sqrt_nonneg
              ((segDistSq ⟨s.cfg.endPoint.x, s.cfg.endPoint.y,
                s.cfg.endPoint.z⟩ ⟨p.x - s.cfg.endPoint.x,
                p.y - s.cfg.endPoint.y, p.z - s.cfg.endPoint.z⟩
                ⟨pos.x, pos.y, pos.z⟩ : ℚ) : ℝ)
            have : (0 : ℝ) ≤ (s.cfg.naivecamTolerance : ℝ) :=
              le_trans hnn hd
            exact absurd (by exact_mod_cast this) (not_le.mpr hlt)
          · exact hgt
        exact ⟨⟨hmode, htolpos, ⟨pos, rfl, ha, hb, hc, hu, hv, hw⟩, hxyz,
          hdist⟩, hlen⟩
      · rintro ⟨⟨hmode, htol, ⟨pos2, hpos2, ha, hb, hc, hu, hv, hw⟩, hxyz,
          hdist⟩, hlen⟩
        cases hpos2
        exact ⟨⟨hmode, ne_of_gt htol⟩, hlen, ha, hb, hc, hu, hv, hw, hxyz,
          hdist⟩
  · unfold see_segment
    simp only
    split
    · rw [flush_segments_points_nil]
      exact Nat.zero_le 101
    · by_cases hf : s.points ≠ [] ∧ linkable env s p = false
      · rw [if_pos hf]
        simp only [flush_segments_points_nil, List.length_append,
          List.length_nil, List.length_cons]
        exact by omega
      · rw [if_neg hf]
        simp only [List.length_append, List.length_cons, List.length_nil]
        push_neg at hf
        by_cases hnil : s.points = []
        · rw [hnil]
          simp
        · have hlink := hf hnil
          have hlink2 : linkable env s p = true := by
            simpa using hlink
          have := linkable_length_le env s p hlink2
          omega

/-- Witness for the linkability characterisation: with one buffered point
(10,0,0) and candidate (20,0,0), both sides of the equivalence hold and the
buffer stays within 101 entries. -/
theorem linkable_characterization_witness :
    stBuf.points ≠ [] ∧
    (linkable envW stBuf ⟨20, 0, 0, 0, 0, 0, 0, 0, 0⟩ = true ↔
      linkableSpecAmended envW stBuf ⟨20, 0, 0, 0, 0, 0, 0, 0, 0⟩) ∧
    (see_segment envW stBuf 11 ⟨20, 0, 0, 0, 0, 0, 0, 0, 0⟩).1.points.length
      ≤ 101 :=
  ⟨by decide,
   (linkable_characterization envW stBuf ⟨20, 0, 0, 0, 0, 0, 0, 0, 0⟩ 11).1
     (by decide),
   (linkable_characterization envW stBuf ⟨20, 0, 0, 0, 0, 0, 0, 0, 0⟩ 11).2⟩

/-- A buffer of n copies of (1,0,0), 1 ≤ n ≤ 100, links the candidate
(1,0,0): every buffered copy lies at distance 0 from the chord. -/
theorem linkable_replicate (n : Nat) (h1 : n ≠ 0) (h2 : n ≤ 100) :
    linkable envW ⟨st0.cfg, List.replicate n ptc⟩ cand1 = true := by
  obtain ⟨m, rfl⟩ : ∃ m, n = m + 1 := ⟨n - 1, by omega⟩
  unfold linkable
  rw [show (List.replicate (m + 1) ptc).getLast? = some ptc from by
    rw [List.replicate_succ']
    simp]
  dsimp only
  simp only [ite_false_left]
  refine ⟨by decide, ?_, by decide, by decide, by decide, by decide,
    by decide, by decide, by decide, ?_⟩
  · simp only [List.length_replicate, not_lt, gt_iff_lt]
    omega
  · simp only [List.all_eq_true]
    intro it hit
    rw [List.eq_of_mem_replicate hit]
    decide

/-- The repeated collinear feed keeps pushing: after n feeds the buffer is n
copies of (1,0,0), for every n up to 101. -/
theorem feedRun_replicate (n : Nat) (h : n ≤ 101) :
    feedRun n = ⟨st0.cfg, List.replicate n ptc⟩ := by
  induction n with
  | zero => rfl
  | succ m ih =>
    have hm := ih (by omega)
    show (STRAIGHT_FEED envW (feedRun m) 1 cand1).1 = _
    rw [hm]
    unfold STRAIGHT_FEED
    dsimp only
    rw [show rotate_and_offset_pos envW st0.cfg
        (from_prog st0.cfg.lengthUnits cand1) = cand1 from by decide]
    unfold see_segment
    dsimp only
    have hcond : ¬((⟨st0.cfg, List.replicate m ptc⟩ : St).points ≠ [] ∧
        linkable envW ⟨st0.cfg, List.replicate m ptc⟩ cand1 = false) := by
      rcases Nat.eq_zero_or_pos m with hm0 | hmpos
      · subst hm0
        simp
      · rintro ⟨-, hlf⟩
        rw [linkable_replicate m (by omega) (by omega)] at hlf
        exact absurd hlf (by decide)
    rw [if_neg hcond, if_neg (by decide)]
    rw [show Pt.ofPose cand1 1 = ptc from rfl, ← List.replicate_succ']

/-- C2 counterexample: with exactly 100 buffered points the code still
links the candidate (its guard rejects only `size() > 100`), while the
claim's `size < 100` condition is violated — and the claimed 100-entry bound
fails on a real run: 101 consecutive collinear feeds leave 101 entries in
the buffer. -/
theorem linkable_counterexample :
    linkable envW st100 cand1 = true ∧
    ¬linkableSpecStrict envW st100 cand1 ∧
    (feedRun 101).points.length = 101 := by
  refine ⟨linkable_replicate 100 (by decide) (by decide), ?_, ?_⟩
  · intro hc
    have hlen := hc.2
    rw [show st100.points.length = 100 from by
      simp [st100, List.length_replicate]] at hlen
    exact absurd hlen (by decide)
  · rw [feedRun_replicate 101 (le_refl 101)]
    simp [List.length_replicate]

end EmcCanon
